import Mathlib

/-!
Verification development for the mycompany repository (src/main.py,
src/agents/base_agent.py, src/agents/chat_space_env.py).

The definitions below are a shallow embedding of the source:

* ChatSpace (chat_space_env.py): channels are a mapping from channel name to an
  append-only list of messages; send_message appends, listen_to_channel polls a
  suffix slice with a local processed_count cursor, clear_channel empties a list.
* BaseAgent (base_agent.py): TOOLSETS, the hasattr-filtered tool table, the
  employee-store executors, the send_message rate-limit/dedup gate, and the
  tool-call dispatch of the run loop.

Python specifics are embedded explicitly: falsy strings are the empty string,
dict/list insertion order is list order, slice l[k:] of a list is List.drop
(total, clamping out-of-range indices), slice l[-k:] for k = 0 is the whole
list, and calling a method that the class does not define is an AttributeError
value rather than a crash of the model.
-/

/-- A channel message, chat_space_env.py line 62: a dict with sender and content. -/
structure Message where
  sender : String
  content : String
deriving DecidableEq, Repr

/-- State of one channel together with one listener of listen_to_channel
(chat_space_env.py lines 82-91): the message list, the local processed_count of
the listener, and the log of the message batches handed to the callback so far. -/
structure BusState where
  msgs : List Message
  cursor : Nat
  polls : List (List Message)
deriving DecidableEq, Repr

/-- Events of one channel with one listener: a publish by anyone
(ChatSpace.send_message appending to the channel list, chat_space_env.py line 63)
or one iteration of the listener polling loop (lines 86-90). -/
inductive Ev where
  | publish (m : Message)
  | poll
deriving DecidableEq, Repr

/-- One event step. A poll takes the slice messages[processed_count:], hands it to
the callback, and sets processed_count to len(messages) - the loop body of
listen_to_channel. -/
def stepEv (s : BusState) : Ev → BusState
  | .publish m => { s with msgs := s.msgs ++ [m] }
  | .poll => { s with polls := s.polls ++ [s.msgs.drop s.cursor], cursor := s.msgs.length }

/-- Run a sequence of publish/poll events from an empty channel and a fresh listener. -/
def runEv (es : List Ev) : BusState :=
  es.foldl stepEv ⟨[], 0, []⟩

/-- Events including clear_channel (chat_space_env.py lines 93-95), which empties
the channel list and leaves every listener cursor untouched. -/
inductive EvC where
  | publish (m : Message)
  | poll
  | clear
deriving DecidableEq, Repr

/-- One event step including clear. -/
def stepEvC (s : BusState) : EvC → BusState
  | .publish m => { s with msgs := s.msgs ++ [m] }
  | .poll => { s with polls := s.polls ++ [s.msgs.drop s.cursor], cursor := s.msgs.length }
  | .clear => { s with msgs := [] }

/-- Run a sequence of publish/poll/clear events from an empty channel and a fresh
listener. -/
def runEvC (es : List EvC) : BusState :=
  es.foldl stepEvC ⟨[], 0, []⟩

lemma runEv_append (es es' : List Ev) :
    runEv (es ++ es') = es'.foldl stepEv (runEv es) := by
  simp [runEv, List.foldl_append]

lemma runEvC_append (es es' : List EvC) :
    runEvC (es ++ es') = es'.foldl stepEvC (runEvC es) := by
  simp [runEvC, List.foldl_append]

/-- The listener invariant of the publish/poll system: the cursor never passes the
channel length, and the concatenation of all delivered batches is exactly the
prefix of the channel below the cursor. -/
lemma runEv_invariant (es : List Ev) :
    (runEv es).cursor ≤ (runEv es).msgs.length ∧
      (runEv es).polls.flatten = (runEv es).msgs.take (runEv es).cursor := by
  induction es using List.reverseRecOn with
  | nil => simp [runEv]
  | append_singleton es e ih =>
    rw [runEv_append]
    cases e with
    | publish m =>
      refine ⟨?_, ?_⟩
      · simpa [stepEv] using le_trans ih.1 (by simp)
      · have h := @List.take_append_of_le_length _ _ [m] _ ih.1
        simpa [stepEv, h] using ih.2
    | poll =>
      refine ⟨?_, ?_⟩
      · simp [stepEv]
      · simp [stepEv, ih.2]

/-- Publishing a list of messages in order appends it to the channel and changes
nothing else. -/
lemma foldl_publishC (ps : List Message) : ∀ s : BusState,
    (ps.map EvC.publish).foldl stepEvC s = { s with msgs := s.msgs ++ ps } := by
  induction ps with
  | nil => intro s; simp
  | cons p ps ih =>
    intro s
    simp [stepEvC, ih]

/-- C1: over any interleaving of publishes and listener polls on a channel, the
listener cursor (processed_count of listen_to_channel, chat_space_env.py 82-91)
is non-decreasing and bounded by the channel length; the concatenation of all
batches delivered to the callback equals the prefix of the channel below the
cursor, so no message is delivered twice and none below the cursor is skipped;
and each poll delivers exactly the messages appended after the current cursor,
in publish order, advancing the cursor by their count. -/
theorem C1_cursor_invariants :
    (∀ (es : List Ev) (e : Ev), (runEv es).cursor ≤ (runEv (es ++ [e])).cursor) ∧
    (∀ es : List Ev, (runEv es).cursor ≤ (runEv es).msgs.length) ∧
    (∀ es : List Ev,
      (runEv es).polls.flatten = (runEv es).msgs.take (runEv es).cursor) ∧
    (∀ es : List Ev,
      (runEv (es ++ [Ev.poll])).polls =
          (runEv es).polls ++ [(runEv es).msgs.drop (runEv es).cursor] ∧
        (runEv (es ++ [Ev.poll])).cursor =
          (runEv es).cursor + ((runEv es).msgs.drop (runEv es).cursor).length) := by
  refine ⟨?_, fun es => (runEv_invariant es).1, fun es => (runEv_invariant es).2, ?_⟩
  · intro es e
    rw [runEv_append]
    cases e with
    | publish m => simp [stepEv]
    | poll => simpa [stepEv] using (runEv_invariant es).1
  · intro es
    have h := (runEv_invariant es).1
    rw [runEv_append]
    refine ⟨by simp [stepEv], ?_⟩
    simp [stepEv, List.length_drop]
    omega

/-- C7 counterexample: publish m1, m2; poll (cursor 2); clear; publish m3; poll.
The poll after the clear does not reset the cursor to zero (it becomes 1, the
new channel length), and m3 - published after the clear - is never handed to the
callback, not even after further publishes and polls. -/
theorem C7_counterexample :
    (runEvC [EvC.publish ⟨"op", "m1"⟩, EvC.publish ⟨"op", "m2"⟩, EvC.poll, EvC.clear,
        EvC.publish ⟨"op", "m3"⟩, EvC.poll]).cursor = 1 ∧
    (⟨"op", "m3"⟩ : Message) ∉
      (runEvC [EvC.publish ⟨"op", "m1"⟩, EvC.publish ⟨"op", "m2"⟩, EvC.poll, EvC.clear,
        EvC.publish ⟨"op", "m3"⟩, EvC.poll, EvC.publish ⟨"op", "m4"⟩, EvC.poll]).polls.flatten := by
  decide

/-- C7 amended: after clear_channel while a listener holds a cursor past zero, the
next poll of listen_to_channel does not crash - an out-of-range cursor just
yields an empty slice - and sets the cursor to the current channel length rather
than to zero; hence a poll that finds the channel still empty resets the cursor
to zero and everything published after such a poll is delivered, while messages
published between the clear and the next poll are skipped when the old cursor
exceeds their number. -/
theorem C7_clear_amended :
    (∀ es : List EvC, (runEvC es).msgs.length ≤ (runEvC es).cursor →
      runEvC (es ++ [EvC.poll]) =
        { runEvC es with polls := (runEvC es).polls ++ [[]],
                         cursor := (runEvC es).msgs.length }) ∧
    (∀ es : List EvC,
      (runEvC (es ++ [EvC.clear, EvC.poll])).cursor = 0 ∧
      (runEvC (es ++ [EvC.clear, EvC.poll])).polls = (runEvC es).polls ++ [[]]) ∧
    (∀ (es : List EvC) (ps : List Message),
      (runEvC (es ++ [EvC.clear, EvC.poll] ++ ps.map EvC.publish ++ [EvC.poll])).polls =
        (runEvC es).polls ++ [[]] ++ [ps]) ∧
    (∀ (es : List EvC) (ps : List Message),
      (runEvC (es ++ [EvC.clear] ++ ps.map EvC.publish ++ [EvC.poll])).cursor = ps.length ∧
      (runEvC (es ++ [EvC.clear] ++ ps.map EvC.publish ++ [EvC.poll])).polls =
        (runEvC es).polls ++ [ps.drop (runEvC es).cursor]) := by
  refine ⟨?_, ?_, ?_, ?_⟩
  · intro es h
    rw [runEvC_append]
    simp [stepEvC, List.drop_eq_nil_of_le h]
  · intro es
    rw [runEvC_append]
    simp [stepEvC]
  · intro es ps
    rw [show es ++ [EvC.clear, EvC.poll] ++ ps.map EvC.publish ++ [EvC.poll] =
          es ++ ([EvC.clear, EvC.poll] ++ ps.map EvC.publish ++ [EvC.poll]) by simp]
    rw [runEvC_append]
    simp [stepEvC, foldl_publishC]
  · intro es ps
    rw [show es ++ [EvC.clear] ++ ps.map EvC.publish ++ [EvC.poll] =
          es ++ ([EvC.clear] ++ ps.map EvC.publish ++ [EvC.poll]) by simp]
    rw [runEvC_append]
    simp [stepEvC, foldl_publishC]

/-- C7 witness for the amended statement at concrete inputs: an immediate poll on
the fresh empty listener delivers an empty batch and leaves the cursor at zero,
and after publish x, poll, clear, poll, publish y, poll the last poll delivers
exactly y. -/
theorem C7_clear_amended_witness :
    runEvC ([] ++ [EvC.poll]) =
      { runEvC [] with polls := (runEvC []).polls ++ [[]],
                       cursor := (runEvC []).msgs.length } ∧
    (runEvC ([EvC.publish ⟨"a", "x"⟩, EvC.poll] ++ [EvC.clear, EvC.poll] ++
        [Message.mk ("a") ("y")].map EvC.publish ++ [EvC.poll])).polls =
      (runEvC [EvC.publish ⟨"a", "x"⟩, EvC.poll]).polls ++ [[]] ++ [[⟨"a", "y"⟩]] :=
  ⟨C7_clear_amended.1 [] (by decide),
   C7_clear_amended.2.2.1 [EvC.publish ⟨"a", "x"⟩, EvC.poll] [⟨"a", "y"⟩]⟩

/-- Agent roles; BaseAgent.__init__ (base_agent.py 61-62) rejects any other role
string, so the validated domain is this three-element type. -/
inductive Role where
  | HR
  | Management
  | General
deriving DecidableEq, Repr

/-- The static role to tool-name table, base_agent.py lines 28-41. -/
def TOOLSETS : Role → List String
  | .HR => ["list_employees", "add_employee", "remove_employee",
            "generate_report", "log_activity", "update_employee"]
  | .Management => ["list_employees", "generate_report", "log_activity",
                    "broadcast_message", "view_department_stats"]
  | .General => ["list_employees", "log_activity", "send_message",
                 "change_channel", "view_channel_history"]

/-- The methods defined on the BaseAgent class in base_agent.py. Neither
receive_message (used at line 245) nor log_activity (called at lines 161 and 179)
nor remove_employee, generate_report, broadcast_message, change_channel (listed
in TOOLSETS) is among them. -/
def baseAgentMethods : List String :=
  ["_ensure_employee_file_exists", "_get_tools_for_role", "_read_employee_data",
   "_write_employee_data", "list_employees", "add_employee", "update_employee",
   "view_department_stats", "view_channel_history", "send_message", "run"]

/-- All attributes of a BaseAgent instance: the fields set in __init__
(base_agent.py 64-78) followed by the class methods. -/
def baseAgentAttrs : List String :=
  ["name", "role", "chat_space", "channel", "message_cooldown", "messages",
   "activity_log", "tools", "last_message", "employee_file_path"] ++ baseAgentMethods

/-- hasattr(self, n) for a BaseAgent instance. -/
def hasattrBaseAgent (attr : String) : Bool :=
  baseAgentAttrs.contains attr

/-- _get_tools_for_role (base_agent.py 94-105): the role entry of TOOLSETS
filtered by hasattr, keeping order; the values of the resulting dict are the
bound methods, so only the name list matters here. -/
def toolsFor (r : Role) : List String :=
  (TOOLSETS r).filter hasattrBaseAgent

/-- One employee record as stored in employees.json (base_agent.py 154-158). -/
structure Employee where
  name : String
  position : String
  hire_date : String
deriving DecidableEq, Repr

/-- The employee store: department name to record list, in insertion order, as
the whole-document JSON file reads and writes it. -/
abbrev Store := List (String × List Employee)

/-- The channel map of ChatSpace (chat_space_env.py line 11): a defaultdict from
channel name to message list, every name mapped (absent names to the empty list). -/
abbrev Channels := String → List Message

/-- ChatSpace.send_message (chat_space_env.py 60-64): append a message dict to the
named channel list. The GUI display call changes no channel state. -/
def ChatSpace.send_message (chans : Channels) (channel sender content : String) : Channels :=
  fun c => if c = channel then chans c ++ [⟨sender, content⟩] else chans c

/-- Exceptions of the embedding: AttributeError for access to an undefined
attribute, TypeError for a call whose required keyword arguments are missing. -/
inductive PyError where
  | attributeError
  | typeError
deriving DecidableEq, Repr

/-- The value a tool call leaves in the transcript: a plain string, one of the
json.dumps payloads rendered by their structured content, or Python None
(send_message returns None on every path that is not the access-denied one). -/
inductive ToolResp where
  | text (s : String)
  | json_listing (data : List (String × List Employee))
  | json_stats (data : List (String × Nat × List (String × Nat)))
  | json_history (channel : String) (msgs : List Message)
  | noneVal
deriving DecidableEq, Repr

/-- One transcript turn, base_agent.py 277-280. -/
structure Turn where
  role : String
  content : ToolResp
deriving DecidableEq, Repr

/-- The mutable per-agent state of BaseAgent.__init__ (base_agent.py 64-75);
last_message is the content/timestamp pair dict, both entries None initially. -/
structure BaseAgent where
  name : String
  role : Role
  channel : String
  message_cooldown : ℚ
  messages : List Turn
  activity_log : List String
  tools : List String
  last_content : Option String
  last_timestamp : Option ℚ
deriving DecidableEq, Repr

/-- BaseAgent.__init__ for a valid role: empty transcript and activity log, tools
from _get_tools_for_role, last_message content and timestamp both None. -/
def BaseAgent.init (name : String) (role : Role) (channel : String)
    (message_cooldown : ℚ) : BaseAgent :=
  { name := name, role := role, channel := channel,
    message_cooldown := message_cooldown, messages := [], activity_log := [],
    tools := toolsFor role, last_content := none, last_timestamp := none }

/-- Append a record to a department list of the store, base_agent.py 154-158
(mutation of employees[department] followed by a whole-document write). -/
def storeAppend (store : Store) (dept : String) (e : Employee) : Store :=
  store.map fun p => if p.1 = dept then (p.1, p.2 ++ [e]) else p

/-- BaseAgent.add_employee (base_agent.py 138-163). The success path writes the
updated store and then calls self.log_activity, an attribute the class does not
define, so it raises AttributeError after the write instead of reaching the
success return; every other path returns its string and leaves the store as read. -/
def BaseAgent.add_employee (a : BaseAgent) (store : Store)
    (name department position hire_date : String) : Except PyError String × Store :=
  if ("add_employee") ∉ a.tools then
    (.ok ("Access Denied: You do not have permission to add employees."), store)
  else if name = "" ∨ department = "" ∨ position = "" then
    (.ok ("Error: All fields (name, department, position) are required."), store)
  else
    match store.lookup department with
    | none => (.ok ("Error: Invalid department \x27" ++ department ++ "\x27"), store)
    | some emps =>
      if emps.any fun e => e.name = name then
        (.ok ("Error: Employee \x27" ++ name ++ "\x27 already exists in " ++ department),
         store)
      else
        (.error .attributeError, storeAppend store department ⟨name, position, hire_date⟩)

/-- Update the position of the first employee with the given name, mirroring the
for-loop with early return in base_agent.py 174-181. -/
def updateFirst (emps : List Employee) (name position : String) : List Employee :=
  match emps with
  | [] => []
  | e :: rest =>
    if e.name = name then { e with position := position } :: rest
    else e :: updateFirst rest name position

/-- Replace a department list in the store (the in-place mutation of a record of
employees[department] followed by the whole-document write). -/
def storeSet (store : Store) (dept : String) (emps : List Employee) : Store :=
  store.map fun p => if p.1 = dept then (p.1, emps) else p

/-- BaseAgent.update_employee (base_agent.py 165-183). When a matching employee is
found, the position is changed only if new_position is truthy (not None and not
empty), the store is written, and the call to the undefined self.log_activity
then raises AttributeError before the success return. -/
def BaseAgent.update_employee (a : BaseAgent) (store : Store)
    (name department : String) (new_position : Option String) :
    Except PyError String × Store :=
  if ("update_employee") ∉ a.tools then
    (.ok ("Access Denied: You do not have permission to update employees."), store)
  else
    match store.lookup department with
    | none => (.ok ("Error: Department \x27" ++ department ++ "\x27 not found"), store)
    | some emps =>
      if emps.any fun e => e.name = name then
        match new_position with
        | some p =>
          if p = "" then (.error .attributeError, storeSet store department emps)
          else (.error .attributeError, storeSet store department (updateFirst emps name p))
        | none => (.error .attributeError, storeSet store department emps)
      else
        (.ok ("Error: Employee \x27" ++ name ++ "\x27 not found in " ++ department), store)

/-- BaseAgent.list_employees (base_agent.py 128-136); a truthy department argument
selects one department via employees.get(department, []), otherwise the whole
store is dumped. -/
def BaseAgent.list_employees (a : BaseAgent) (store : Store)
    (department : Option String) : ToolResp :=
  if ("list_employees") ∉ a.tools then
    .text ("Access Denied: You do not have permission to list employees.")
  else
    match department with
    | some d =>
      if d = "" then .json_listing store
      else .json_listing [(d, (store.lookup d).getD [])]
    | none => .json_listing store

/-- Position histogram of one department, built in insertion order with
get(pos, 0) + 1, base_agent.py 200-202. -/
def positionCounts (emps : List Employee) : List (String × Nat) :=
  emps.foldl
    (fun acc e =>
      if acc.any fun p => p.1 = e.position then
        acc.map fun p => if p.1 = e.position then (p.1, p.2 + 1) else p
      else acc ++ [(e.position, 1)])
    []

/-- BaseAgent.view_department_stats (base_agent.py 185-204); a truthy department
argument restricts the aggregation to that department. -/
def BaseAgent.view_department_stats (a : BaseAgent) (store : Store)
    (department : Option String) : ToolResp :=
  if ("view_department_stats") ∉ a.tools then
    .text ("Access Denied: You do not have permission to view department stats.")
  else
    .json_stats
      ((store.filter fun p =>
          match department with
          | some d => if d = "" then true else p.1 == d
          | none => true).map
        fun p => (p.1, p.2.length, positionCounts p.2))

/-- The Python slice l[-limit:] for a non-negative limit: for limit = 0 the index
-0 is 0 and the slice is the whole list; otherwise the start index clamps at the
left end, so the slice is the last limit elements. -/
def pySliceLast {α : Type} (l : List α) (limit : Nat) : List α :=
  if limit = 0 then l else l.drop (l.length - limit)

/-- BaseAgent.view_channel_history (base_agent.py 206-215): the slice
channels[self.channel][-limit:] wrapped with the channel name, as json.dumps
renders it. -/
def BaseAgent.view_channel_history (a : BaseAgent) (chans : Channels)
    (limit : Nat) : ToolResp :=
  if ("view_channel_history") ∉ a.tools then
    .text ("Access Denied: You do not have permission to view channel history.")
  else
    .json_history a.channel (pySliceLast (chans a.channel) limit)

/-- The cooldown test of BaseAgent.send_message (base_agent.py 225-227): a set
(hence truthy) timestamp closer to now than message_cooldown. -/
def sendCooldownActive (a : BaseAgent) (now : ℚ) : Bool :=
  match a.last_timestamp with
  | none => false
  | some ts => decide (now - ts < a.message_cooldown)

/-- BaseAgent.send_message (base_agent.py 217-236). Returns the updated agent, the
updated channels and the returned value: the access-denied string when the tool
is missing, otherwise None whether or not the message was published. A publish
appends to the target channel and records content and time as last_message. -/
def BaseAgent.send_message (a : BaseAgent) (chans : Channels)
    (target_channel content : String) (now : ℚ) :
    BaseAgent × Channels × Option String :=
  if ("send_message") ∉ a.tools then
    (a, chans, some ("Access Denied: You do not have permission to send messages."))
  else if sendCooldownActive a now then
    (a, chans, none)
  else if a.last_content = some content then
    (a, chans, none)
  else
    ({ a with last_content := some content, last_timestamp := some now },
     ChatSpace.send_message chans target_channel a.name content, none)

/-- The keyword-argument dict of one tool call as the model reads it
(base_agent.py 270): each known key optional, absent keys none. -/
structure ToolArgs where
  arg_name : Option String
  department : Option String
  position : Option String
  new_position : Option String
  target_channel : Option String
  content : Option String
  limit : Option Nat
deriving DecidableEq, Repr

/-- The empty keyword-argument dict. -/
def noArgs : ToolArgs := ⟨none, none, none, none, none, none, none⟩

/-- One tool call of the model response, base_agent.py 268-270: a function name
and keyword arguments. -/
structure ToolCall where
  fname : String
  args : ToolArgs
deriving DecidableEq, Repr

/-- Result of processing one tool call in the run loop: agent, store and channel
state afterwards, and the exception escaping to the outer handler if one did. -/
structure StepOut where
  agent : BaseAgent
  store : Store
  chans : Channels
  raised : Option PyError

/-- Invocation of an authorized executor with dynamic keyword expansion,
base_agent.py 273: the named method is called with the supplied arguments; a
missing required argument is a TypeError, and the response value is what the
method returns. Only names present in self.tools ever reach this point. -/
def runTool (a : BaseAgent) (store : Store) (chans : Channels) (now : ℚ)
    (hire_date : String) (tc : ToolCall) :
    Except PyError ToolResp × BaseAgent × Store × Channels :=
  if tc.fname = "list_employees" then
    (.ok (a.list_employees store tc.args.department), a, store, chans)
  else if tc.fname = "add_employee" then
    match tc.args.arg_name, tc.args.department, tc.args.position with
    | some n, some d, some p =>
      match a.add_employee store n d p hire_date with
      | (.ok s, store') => (.ok (.text s), a, store', chans)
      | (.error e, store') => (.error e, a, store', chans)
    | _, _, _ => (.error .typeError, a, store, chans)
  else if tc.fname = "update_employee" then
    match tc.args.arg_name, tc.args.department with
    | some n, some d =>
      match a.update_employee store n d tc.args.new_position with
      | (.ok s, store') => (.ok (.text s), a, store', chans)
      | (.error e, store') => (.error e, a, store', chans)
    | _, _ => (.error .typeError, a, store, chans)
  else if tc.fname = "view_department_stats" then
    (.ok (a.view_department_stats store tc.args.department), a, store, chans)
  else if tc.fname = "view_channel_history" then
    (.ok (a.view_channel_history chans ((tc.args.limit).getD 10)), a, store, chans)
  else if tc.fname = "send_message" then
    match tc.args.target_channel, tc.args.content with
    | some t, some c =>
      match a.send_message chans t c now with
      | (a', chans', some s) => (.ok (.text s), a', store, chans')
      | (a', chans', none) => (.ok .noneVal, a', store, chans')
    | _, _ => (.error .typeError, a, store, chans)
  else
    (.error .typeError, a, store, chans)

/-- Processing of one tool call in the run loop, base_agent.py 267-280: an
authorized name is dispatched and its response appended as a tool turn (an
escaping exception skips the append and reaches the outer handler); any name not
in self.tools appends the fixed denial turn and invokes nothing. -/
def handleToolCall (a : BaseAgent) (store : Store) (chans : Channels) (now : ℚ)
    (hire_date : String) (tc : ToolCall) : StepOut :=
  if tc.fname ∈ a.tools then
    match runTool a store chans now hire_date tc with
    | (.ok r, a', store', chans') =>
      ⟨{ a' with messages := a'.messages ++ [⟨"tool", r⟩] }, store', chans', none⟩
    | (.error e, a', store', chans') => ⟨a', store', chans', some e⟩
  else
    ⟨{ a with messages := a.messages ++ [⟨"tool", .text ("Unauthorized tool usage.")⟩] },
     store, chans, none⟩

/-- The names in the tool manifest offered to the model each cycle, built from
self.tools in base_agent.py 255-262. -/
def manifestNames (a : BaseAgent) : List String :=
  a.tools

/-- Startup of the listen task: run (base_agent.py 244-245) resolves the attribute
self.receive_message to pass it as the callback; BaseAgent defines no such
attribute, so the task raises AttributeError before its first poll. -/
def startListenTask (_a : BaseAgent) : Except PyError Unit :=
  if hasattrBaseAgent ("receive_message") then .ok () else .error .attributeError

/-- Shared employee file plus the private snapshots of two in-flight add_employee
calls, each of which is a whole-document read followed by a whole-document write
(base_agent.py 146 and 160 via _read_employee_data and _write_employee_data). -/
structure FileState where
  file : Store
  snap1 : Option Store
  snap2 : Option Store
deriving DecidableEq, Repr

/-- The read and write events of two concurrent read-modify-write calls. The
asyncio.Lock guarding each file access (base_agent.py 110 and 120) is constructed
fresh inside the call, so acquiring it never waits for the other call and the
four events may interleave in any order; the agents also run in distinct threads
with separate event loops (main.py 24-30). -/
inductive RWEv where
  | read1
  | read2
  | write1
  | write2
deriving DecidableEq, Repr

/-- One interleaving step: a read takes a snapshot of the file, a write stores the
transform of the snapshot back as the whole document. -/
def stepRW (f1 f2 : Store → Store) (s : FileState) : RWEv → FileState
  | .read1 => { s with snap1 := some s.file }
  | .read2 => { s with snap2 := some s.file }
  | .write1 => match s.snap1 with
    | some st => { s with file := f1 st }
    | none => s
  | .write2 => match s.snap2 with
    | some st => { s with file := f2 st }
    | none => s

/-- Run an interleaving of the two calls from an initial file. -/
def runRW (f1 f2 : Store → Store) (s0 : Store) (es : List RWEv) : FileState :=
  es.foldl (stepRW f1 f2) ⟨s0, none, none⟩

lemma mem_toolsFor_mem_TOOLSETS {n : String} {r : Role} (h : n ∈ toolsFor r) :
    n ∈ TOOLSETS r :=
  (List.mem_filter.mp h).1

/-- C2: a tool call whose name is outside the configured toolset of the role of
the agent appends the fixed denial turn in the run loop (base_agent.py 274-280),
invokes no executor and leaves the store and every channel unchanged; and each
executor defined on the class returns its access-denied string and changes no
state when its own name is missing from self.tools (the second gate at the top
of each method). -/
theorem C2_unauthorized_denial :
    (∀ (a : BaseAgent) (store : Store) (chans : Channels) (now : ℚ)
        (hire_date : String) (tc : ToolCall),
      a.tools = toolsFor a.role → tc.fname ∉ TOOLSETS a.role →
      handleToolCall a store chans now hire_date tc =
        ⟨{ a with messages :=
              a.messages ++ [⟨"tool", .text ("Unauthorized tool usage.")⟩] },
         store, chans, none⟩) ∧
    (∀ (a : BaseAgent) (store : Store) (department : Option String),
      ("list_employees") ∉ a.tools →
      a.list_employees store department =
        .text ("Access Denied: You do not have permission to list employees.")) ∧
    (∀ (a : BaseAgent) (store : Store) (name department position hire_date : String),
      ("add_employee") ∉ a.tools →
      a.add_employee store name department position hire_date =
        (.ok ("Access Denied: You do not have permission to add employees."), store)) ∧
    (∀ (a : BaseAgent) (store : Store) (name department : String)
        (new_position : Option String),
      ("update_employee") ∉ a.tools →
      a.update_employee store name department new_position =
        (.ok ("Access Denied: You do not have permission to update employees."), store)) ∧
    (∀ (a : BaseAgent) (store : Store) (department : Option String),
      ("view_department_stats") ∉ a.tools →
      a.view_department_stats store department =
        .text ("Access Denied: You do not have permission to view department stats.")) ∧
    (∀ (a : BaseAgent) (chans : Channels) (limit : Nat),
      ("view_channel_history") ∉ a.tools →
      a.view_channel_history chans limit =
        .text ("Access Denied: You do not have permission to view channel history.")) ∧
    (∀ (a : BaseAgent) (chans : Channels) (target_channel content : String) (now : ℚ),
      ("send_message") ∉ a.tools →
      a.send_message chans target_channel content now =
        (a, chans, some ("Access Denied: You do not have permission to send messages."))) := by
  refine ⟨?_, ?_, ?_, ?_, ?_, ?_, ?_⟩
  · intro a store chans now hire_date tc htools hnot
    have hmem : tc.fname ∉ a.tools := by
      rw [htools]
      exact fun h => hnot (mem_toolsFor_mem_TOOLSETS h)
    unfold handleToolCall
    rw [if_neg hmem]
  · intro a store department h
    unfold BaseAgent.list_employees
    rw [if_pos h]
  · intro a store name department position hire_date h
    unfold BaseAgent.add_employee
    rw [if_pos h]
  · intro a store name department new_position h
    unfold BaseAgent.update_employee
    rw [if_pos h]
  · intro a store department h
    unfold BaseAgent.view_department_stats
    rw [if_pos h]
  · intro a chans limit h
    unfold BaseAgent.view_channel_history
    rw [if_pos h]
  · intro a chans target_channel content now h
    unfold BaseAgent.send_message
    rw [if_pos h]

/-- C2 witness: a General-role agent asked to run add_employee (a tool outside the
General toolset) gets the denial turn and unchanged state, and an HR-role agent
calling send_message directly gets the access-denied string. -/
theorem C2_unauthorized_denial_witness :
    handleToolCall (BaseAgent.init ("B") Role.General ("General") 2)
        [("HR", [])] (fun _ => []) 0 ("d") ⟨"add_employee", noArgs⟩ =
      ⟨{ BaseAgent.init ("B") Role.General ("General") 2 with messages :=
            (BaseAgent.init ("B") Role.General ("General") 2).messages ++
              [⟨"tool", .text ("Unauthorized tool usage.")⟩] },
       [("HR", [])], fun _ => [], none⟩ ∧
    (BaseAgent.init ("H") Role.HR ("HR") 2).send_message (fun _ => [])
        ("General") ("hi") 0 =
      (BaseAgent.init ("H") Role.HR ("HR") 2, fun _ => [],
       some ("Access Denied: You do not have permission to send messages.")) :=
  ⟨C2_unauthorized_denial.1 (BaseAgent.init ("B") Role.General ("General") 2)
      [("HR", [])] (fun _ => []) 0 ("d") ⟨"add_employee", noArgs⟩ rfl (by decide),
   C2_unauthorized_denial.2.2.2.2.2.2 (BaseAgent.init ("H") Role.HR ("HR") 2)
      (fun _ => []) ("General") ("hi") 0 (by decide)⟩

/-- C3: evaluation of the code at a valid add. An authorized HR agent adding a new
employee to an existing department writes the extended store (the record with
name, position and creation timestamp is persisted), but the executor then
raises AttributeError - self.log_activity at base_agent.py line 161 does not
exist on the class - so the success confirmation at line 162 is never returned;
the error branches of add_employee behave as claimed. -/
theorem C3_add_employee_success_path_raises :
    (BaseAgent.init ("HR_Agent") Role.HR ("HR") 2).add_employee
        [("HR", []), ("Management", []), ("Tech", []), ("General", [])]
        ("Alice") ("HR") ("Recruiter") ("2026-10-12T00:00:00") =
      (.error .attributeError,
       [("HR", [⟨"Alice", "Recruiter", "2026-10-12T00:00:00"⟩]),
        ("Management", []), ("Tech", []), ("General", [])]) ∧
    (BaseAgent.init ("HR_Agent") Role.HR ("HR") 2).add_employee
        [("HR", [⟨"Alice", "Recruiter", "d0"⟩])] ("Alice") ("HR") ("Manager") ("d1") =
      (.ok ("Error: Employee \x27Alice\x27 already exists in HR"),
       [("HR", [⟨"Alice", "Recruiter", "d0"⟩])]) ∧
    (BaseAgent.init ("HR_Agent") Role.HR ("HR") 2).add_employee
        [("HR", [])] ("") ("HR") ("Recruiter") ("d") =
      (.ok ("Error: All fields (name, department, position) are required."), [("HR", [])]) ∧
    (BaseAgent.init ("HR_Agent") Role.HR ("HR") 2).add_employee
        [("HR", [])] ("Bob") ("Sales") ("Recruiter") ("d") =
      (.ok ("Error: Invalid department \x27Sales\x27"), [("HR", [])]) :=
  ⟨rfl, rfl, rfl, rfl⟩

/-- C4: evaluation of the code at the failing point. BaseAgent defines no
receive_message attribute, so the listen task the run loop starts
(base_agent.py 244-248) raises AttributeError while resolving the callback,
before its first poll of the channel: no observed message is ever appended to
the transcript by the listen task. -/
theorem C4_listen_task_never_starts :
    hasattrBaseAgent ("receive_message") = false ∧
    startListenTask (BaseAgent.init ("Operations_Agent1") Role.General ("General") 2) =
      .error .attributeError :=
  ⟨rfl, rfl⟩

/-- C10: for every role the manifest offered to the model and the invocable set
coincide with the configured toolset intersected with the methods the class
defines; the five configured names without a method are silently absent from
the manifest, and a decide-loop call to any of them appends the unauthorized
denial instead of invoking an executor. -/
theorem C10_manifest_is_intersection :
    (∀ r : Role, toolsFor r = (TOOLSETS r).filter (fun n => baseAgentMethods.contains n)) ∧
    (∀ (nm ch : String) (cd : ℚ) (r : Role) (n : String),
      n ∈ ["remove_employee", "generate_report", "log_activity",
           "broadcast_message", "change_channel"] →
      n ∉ manifestNames (BaseAgent.init nm r ch cd)) ∧
    (∀ (a : BaseAgent) (store : Store) (chans : Channels) (now : ℚ)
        (hire_date : String) (tc : ToolCall),
      a.tools = toolsFor a.role →
      tc.fname ∈ ["remove_employee", "generate_report", "log_activity",
                  "broadcast_message", "change_channel"] →
      handleToolCall a store chans now hire_date tc =
        ⟨{ a with messages :=
              a.messages ++ [⟨"tool", .text ("Unauthorized tool usage.")⟩] },
         store, chans, none⟩) := by
  have hnot : ∀ (r : Role) (n : String),
      n ∈ ["remove_employee", "generate_report", "log_activity",
           "broadcast_message", "change_channel"] → n ∉ toolsFor r := by
    intro r n hn
    fin_cases hn <;> cases r <;> decide
  refine ⟨?_, ?_, ?_⟩
  · intro r
    cases r <;> decide
  · intro nm ch cd r n hn
    exact hnot r n hn
  · intro a store chans now hire_date tc htools hmem
    have : tc.fname ∉ a.tools := by
      rw [htools]
      exact hnot a.role tc.fname hmem
    unfold handleToolCall
    rw [if_neg this]

/-- C10 witness: log_activity is configured for HR but not defined, so it is
not in the HR manifest and invoking it yields the denial turn. -/
theorem C10_manifest_is_intersection_witness :
    ("log_activity") ∉ manifestNames (BaseAgent.init ("H") Role.HR ("HR") 2) ∧
    handleToolCall (BaseAgent.init ("H") Role.HR ("HR") 2) [("HR", [])]
        (fun _ => []) 0 ("d") ⟨"log_activity", noArgs⟩ =
      ⟨{ BaseAgent.init ("H") Role.HR ("HR") 2 with messages :=
            (BaseAgent.init ("H") Role.HR ("HR") 2).messages ++
              [⟨"tool", .text ("Unauthorized tool usage.")⟩] },
       [("HR", [])], fun _ => [], none⟩ :=
  ⟨C10_manifest_is_intersection.2.1 ("H") ("HR") 2 Role.HR ("log_activity") (by decide),
   C10_manifest_is_intersection.2.2 (BaseAgent.init ("H") Role.HR ("HR") 2)
      [("HR", [])] (fun _ => []) 0 ("d") ⟨"log_activity", noArgs⟩ rfl (by decide)⟩

/-- C8 counterexample: with one message in the channel, an authorized call with
limit = 0 returns that message - the Python slice [-0:] is [0:], the whole list -
and not zero messages. -/
theorem C8_limit_zero_counterexample :
    (BaseAgent.init ("B") Role.General ("General") 2).view_channel_history
        (fun c => if c = "General" then [⟨"op", "hello"⟩] else []) 0 =
      ToolResp.json_history ("General") [⟨"op", "hello"⟩] ∧
    (BaseAgent.init ("B") Role.General ("General") 2).view_channel_history
        (fun c => if c = "General" then [⟨"op", "hello"⟩] else []) 0 ≠
      ToolResp.json_history ("General") [] :=
  ⟨rfl, by decide⟩

/-- C8 amended: for an authorized agent, view_channel_history with a positive
limit returns the last limit messages of the current channel (all of them when
the channel holds fewer), oldest-first within the returned slice; with
limit = 0 it returns the entire channel, because the Python slice [-0:] is the
whole list. -/
theorem C8_view_channel_history_amended (a : BaseAgent) (chans : Channels)
    (limit : Nat) (h : ("view_channel_history") ∈ a.tools) :
    (0 < limit →
      ∃ ms, a.view_channel_history chans limit = ToolResp.json_history a.channel ms ∧
        ms.length = min limit (chans a.channel).length ∧ ms <:+ chans a.channel) ∧
    (limit = 0 →
      a.view_channel_history chans limit =
        ToolResp.json_history a.channel (chans a.channel)) := by
  have hgate : ¬ (("view_channel_history") ∉ a.tools) := fun hn => hn h
  constructor
  · intro hl
    refine ⟨pySliceLast (chans a.channel) limit, ?_, ?_, ?_⟩
    · unfold BaseAgent.view_channel_history
      rw [if_neg hgate]
    · unfold pySliceLast
      rw [if_neg hl.ne']
      simp [List.length_drop]
      omega
    · unfold pySliceLast
      rw [if_neg hl.ne']
      exact List.drop_suffix _ _
  · intro h0
    subst h0
    unfold BaseAgent.view_channel_history
    rw [if_neg hgate]
    unfold pySliceLast
    rw [if_pos rfl]

/-- C8 witness for the amended statement: three messages, limit 2, returns the
last two in order. -/
theorem C8_view_channel_history_amended_witness :
    ∃ ms, (BaseAgent.init ("B") Role.General ("General") 2).view_channel_history
        (fun _ => [⟨"o", "m1"⟩, ⟨"o", "m2"⟩, ⟨"o", "m3"⟩]) 2 =
      ToolResp.json_history
        (BaseAgent.init ("B") Role.General ("General") 2).channel ms ∧
      ms.length = min 2 ((fun _ => [⟨"o", "m1"⟩, ⟨"o", "m2"⟩, ⟨"o", "m3"⟩] :
          Channels) (BaseAgent.init ("B") Role.General ("General") 2).channel).length ∧
      ms <:+ (fun _ => [⟨"o", "m1"⟩, ⟨"o", "m2"⟩, ⟨"o", "m3"⟩] : Channels)
        (BaseAgent.init ("B") Role.General ("General") 2).channel :=
  (C8_view_channel_history_amended (BaseAgent.init ("B") Role.General ("General") 2)
      (fun _ => [⟨"o", "m1"⟩, ⟨"o", "m2"⟩, ⟨"o", "m3"⟩]) 2 (by decide)).1 (by decide)

/-- C9: evaluation of the code at the failing interleaving. Two concurrent
authorized add_employee calls for distinct names in the same department, each a
whole-document read followed by a whole-document write with no effective mutual
exclusion (the asyncio.Lock of base_agent.py 110 and 120 is fresh per call):
when both reads precede both writes the later write overwrites the earlier and
the first record is lost, while the fully serialized order keeps both. -/
theorem C9_lost_update :
    (runRW
        (fun st => ((BaseAgent.init ("H1") Role.HR ("HR") 2).add_employee st
            ("Alice") ("HR") ("PosA") ("d")).2)
        (fun st => ((BaseAgent.init ("H2") Role.HR ("HR") 2).add_employee st
            ("Bob") ("HR") ("PosB") ("d")).2)
        [("HR", [])]
        [RWEv.read1, RWEv.read2, RWEv.write1, RWEv.write2]).file =
      [("HR", [⟨"Bob", "PosB", "d"⟩])] ∧
    (runRW
        (fun st => ((BaseAgent.init ("H1") Role.HR ("HR") 2).add_employee st
            ("Alice") ("HR") ("PosA") ("d")).2)
        (fun st => ((BaseAgent.init ("H2") Role.HR ("HR") 2).add_employee st
            ("Bob") ("HR") ("PosB") ("d")).2)
        [("HR", [])]
        [RWEv.read1, RWEv.write1, RWEv.read2, RWEv.write2]).file =
      [("HR", [⟨"Alice", "PosA", "d"⟩, ⟨"Bob", "PosB", "d"⟩])] :=
  ⟨rfl, rfl⟩

/-- Case analysis of one send_message call, following its four exit points:
access denied, cooldown rejection, duplicate-content rejection, publish. -/
lemma send_message_cases (a : BaseAgent) (chans : Channels) (target c : String) (t : ℚ) :
    (a.send_message chans target c t =
        (a, chans, some ("Access Denied: You do not have permission to send messages.")) ∧
      ("send_message") ∉ a.tools) ∨
    a.send_message chans target c t = (a, chans, none) ∨
    (a.send_message chans target c t =
        ({ a with last_content := some c, last_timestamp := some t },
         ChatSpace.send_message chans target a.name c, none) ∧
      ("send_message") ∈ a.tools ∧ a.last_content ≠ some c) := by
  unfold BaseAgent.send_message
  split_ifs with h1 h2 h3
  · exact Or.inr (Or.inl rfl)
  · exact Or.inr (Or.inl rfl)
  · exact Or.inr (Or.inr ⟨rfl, h1, h3⟩)
  · exact Or.inl ⟨rfl, h1⟩

/-- C6: two consecutive send_message attempts with the same content by the same
agent append at most one message to the target channel, whatever the two call
times; and whenever the first attempt did publish, the recorded last_message
content equals that content and the second attempt returns with the agent and
all channels unchanged. -/
theorem C6_duplicate_content_suppressed (a : BaseAgent) (chans : Channels)
    (target c : String) (t₁ t₂ : ℚ) :
    (((a.send_message chans target c t₁).1.send_message
        (a.send_message chans target c t₁).2.1 target c t₂).2.1 target).length ≤
      (chans target).length + 1 ∧
    (((a.send_message chans target c t₁).2.1 target).length = (chans target).length + 1 →
      (a.send_message chans target c t₁).1.last_content = some c ∧
      (a.send_message chans target c t₁).1.send_message
          (a.send_message chans target c t₁).2.1 target c t₂ =
        ((a.send_message chans target c t₁).1, (a.send_message chans target c t₁).2.1,
         none)) := by
  rcases send_message_cases a chans target c t₁ with ⟨h₁, _⟩ | h₁ | ⟨h₁, hg, _⟩
  · rw [h₁]
    rcases send_message_cases a chans target c t₂ with ⟨h₂, _⟩ | h₂ | ⟨h₂, _, _⟩ <;>
      rw [h₂] <;> simp [ChatSpace.send_message]
  · rw [h₁]
    rcases send_message_cases a chans target c t₂ with ⟨h₂, _⟩ | h₂ | ⟨h₂, _, _⟩ <;>
      rw [h₂] <;> simp [ChatSpace.send_message]
  · rw [h₁]
    rcases send_message_cases ({ a with last_content := some c, last_timestamp := some t₁ })
        (ChatSpace.send_message chans target a.name c) target c t₂ with
      ⟨_, hg2⟩ | h₂ | ⟨_, _, hd2⟩
    · exact (hg2 hg).elim
    · rw [h₂]
      refine ⟨by simp [ChatSpace.send_message], fun _ => ⟨rfl, rfl⟩⟩
    · exact (hd2 rfl).elim

/-- C6 witness: a fresh General-role agent publishes the first attempt, so the
premise of the second conjunct holds and the second identical attempt leaves
agent and channels untouched and appends nothing. -/
theorem C6_duplicate_content_suppressed_witness :
    ((((BaseAgent.init ("A") Role.General ("General") 2).send_message (fun _ => [])
          ("General") ("hi") 0).1.send_message
        ((BaseAgent.init ("A") Role.General ("General") 2).send_message (fun _ => [])
          ("General") ("hi") 0).2.1 ("General") ("hi") 100).2.1 ("General")).length ≤
      (((fun _ => []) : Channels) ("General")).length + 1 ∧
    (((BaseAgent.init ("A") Role.General ("General") 2).send_message (fun _ => [])
        ("General") ("hi") 0).1.last_content = some ("hi") ∧
      ((BaseAgent.init ("A") Role.General ("General") 2).send_message (fun _ => [])
          ("General") ("hi") 0).1.send_message
        ((BaseAgent.init ("A") Role.General ("General") 2).send_message (fun _ => [])
          ("General") ("hi") 0).2.1 ("General") ("hi") 100 =
        (((BaseAgent.init ("A") Role.General ("General") 2).send_message (fun _ => [])
            ("General") ("hi") 0).1,
         ((BaseAgent.init ("A") Role.General ("General") 2).send_message (fun _ => [])
            ("General") ("hi") 0).2.1, none)) :=
  ⟨(C6_duplicate_content_suppressed (BaseAgent.init ("A") Role.General ("General") 2)
      (fun _ => []) ("General") ("hi") 0 100).1,
   (C6_duplicate_content_suppressed (BaseAgent.init ("A") Role.General ("General") 2)
      (fun _ => []) ("General") ("hi") 0 100).2 (by decide)⟩

/-- C5 amended: with cooldown T, for an agent whose recorded last publish is
{c0, t0}, two send_message attempts at times t and t+D with D < T, where the
first attempt passes the gate (t - t0 is at least T and its content differs
from c0), append exactly one message: the first publishes and records its
content and t as last_message, the second returns with the agent and the
channels unchanged - no publish and no last_message update. -/
theorem C5_cooldown_amended (a : BaseAgent) (chans : Channels)
    (target c₀ c₁ c₂ : String) (t₀ t Δ : ℚ)
    (hTools : ("send_message") ∈ a.tools) (hc : a.last_content = some c₀)
    (ht : a.last_timestamp = some t₀) (hCool : a.message_cooldown ≤ t - t₀)
    (hDiff : c₁ ≠ c₀) (hΔ : Δ < a.message_cooldown) :
    a.send_message chans target c₁ t =
      ({ a with last_content := some c₁, last_timestamp := some t },
       ChatSpace.send_message chans target a.name c₁, none) ∧
    ChatSpace.send_message chans target a.name c₁ target =
      chans target ++ [⟨a.name, c₁⟩] ∧
    ({ a with last_content := some c₁, last_timestamp := some t } : BaseAgent).send_message
        (ChatSpace.send_message chans target a.name c₁) target c₂ (t + Δ) =
      ({ a with last_content := some c₁, last_timestamp := some t },
       ChatSpace.send_message chans target a.name c₁, none) := by
  have hgate : ¬ (("send_message") ∉ a.tools) := fun hn => hn hTools
  have hcool1 : sendCooldownActive a t = false := by
    unfold sendCooldownActive
    rw [ht]
    exact decide_eq_false (not_lt.mpr hCool)
  have hded : ¬ (a.last_content = some c₁) := by
    rw [hc]
    intro hcon
    exact hDiff (Option.some.inj hcon).symm
  have hcool2 : sendCooldownActive
      ({ a with last_content := some c₁, last_timestamp := some t }) (t + Δ) = true := by
    unfold sendCooldownActive
    dsimp only
    refine decide_eq_true ?_
    have he : t + Δ - t = Δ := by ring
    rw [he]
    exact hΔ
  refine ⟨?_, by simp [ChatSpace.send_message], ?_⟩
  · unfold BaseAgent.send_message
    rw [if_neg hgate, hcool1]
    rw [if_neg Bool.false_ne_true, if_neg hded]
  · unfold BaseAgent.send_message
    dsimp only
    rw [if_neg hgate, hcool2]
    rw [if_pos rfl]

/-- C5 witness for the amended statement at concrete inputs: cooldown 2, last
publish {a, 0}, attempts {b, 2} and {c, 3}: the first publishes and records
{b, 2}, the second changes nothing. -/
theorem C5_cooldown_amended_witness :
    ({ BaseAgent.init ("A") Role.General ("General") 2 with
        last_content := some ("a"), last_timestamp := some 0 } : BaseAgent).send_message
        (fun _ => []) ("General") ("b") 2 =
      ({ { BaseAgent.init ("A") Role.General ("General") 2 with
            last_content := some ("a"), last_timestamp := some 0 } with
          last_content := some ("b"), last_timestamp := some 2 },
       ChatSpace.send_message (fun _ => []) ("General") ("A") ("b"), none) ∧
    ChatSpace.send_message (fun _ => []) ("General") ("A") ("b") ("General") =
      (fun _ => ([] : List Message)) ("General") ++ [⟨"A", "b"⟩] ∧
    ({ { BaseAgent.init ("A") Role.General ("General") 2 with
          last_content := some ("a"), last_timestamp := some 0 } with
        last_content := some ("b"), last_timestamp := some 2 } : BaseAgent).send_message
        (ChatSpace.send_message (fun _ => []) ("General") ("A") ("b"))
        ("General") ("c") (2 + 1) =
      ({ { BaseAgent.init ("A") Role.General ("General") 2 with
            last_content := some ("a"), last_timestamp := some 0 } with
          last_content := some ("b"), last_timestamp := some 2 },
       ChatSpace.send_message (fun _ => []) ("General") ("A") ("b"), none) :=
  C5_cooldown_amended
    ({ BaseAgent.init ("A") Role.General ("General") 2 with
        last_content := some ("a"), last_timestamp := some 0 })
    (fun _ => []) ("General") ("a") ("b") ("c") 0 2 1 (by decide) rfl rfl
    (le_of_eq (sub_zero (2 : ℚ)).symm) (by decide) one_lt_two

/-- C5 counterexample: an agent that previously published (last_message {a, 9},
cooldown 2) makes two send_message attempts at t = 10 and t + Δ = 21/2 (Δ = 1/2
which is below the cooldown). Both attempts are rejected by the cooldown check,
so zero messages are appended - not exactly one - the first attempt does not
publish, and last_message is never updated. -/
theorem C5_cooldown_counterexample :
    (BaseAgent.init ("A") Role.General ("General") 2).send_message
        (fun _ => []) ("General") ("a") 9 =
      ({ BaseAgent.init ("A") Role.General ("General") 2 with
          last_content := some ("a"), last_timestamp := some 9 },
       ChatSpace.send_message (fun _ => []) ("General") ("A") ("a"), none) ∧
    ({ BaseAgent.init ("A") Role.General ("General") 2 with
        last_content := some ("a"), last_timestamp := some 9 } : BaseAgent).send_message
        (ChatSpace.send_message (fun _ => []) ("General") ("A") ("a"))
        ("General") ("b") 10 =
      ({ BaseAgent.init ("A") Role.General ("General") 2 with
          last_content := some ("a"), last_timestamp := some 9 },
       ChatSpace.send_message (fun _ => []) ("General") ("A") ("a"), none) ∧
    ({ BaseAgent.init ("A") Role.General ("General") 2 with
        last_content := some ("a"), last_timestamp := some 9 } : BaseAgent).send_message
        (ChatSpace.send_message (fun _ => []) ("General") ("A") ("a"))
        ("General") ("c") (21 / 2) =
      ({ BaseAgent.init ("A") Role.General ("General") 2 with
          last_content := some ("a"), last_timestamp := some 9 },
       ChatSpace.send_message (fun _ => []) ("General") ("A") ("a"), none) ∧
    (ChatSpace.send_message (fun _ => []) ("General") ("A") ("a") ("General")).length = 1 := by
  have hgate : ¬ (("send_message") ∉
      (BaseAgent.init ("A") Role.General ("General") 2).tools) := by decide
  have hc10 : sendCooldownActive
      ({ BaseAgent.init ("A") Role.General ("General") 2 with
          last_content := some ("a"), last_timestamp := some 9 }) 10 = true := by
    unfold sendCooldownActive
    dsimp only [BaseAgent.init]
    exact decide_eq_true (by norm_num)
  have hc105 : sendCooldownActive
      ({ BaseAgent.init ("A") Role.General ("General") 2 with
          last_content := some ("a"), last_timestamp := some 9 }) (21 / 2) = true := by
    unfold sendCooldownActive
    dsimp only [BaseAgent.init]
    exact decide_eq_true (by norm_num)
  refine ⟨?_, ?_, ?_, by simp [ChatSpace.send_message]⟩
  · unfold BaseAgent.send_message
    rw [if_neg hgate]
    have hc9 : sendCooldownActive (BaseAgent.init ("A") Role.General ("General") 2) 9
        = false := rfl
    rw [hc9, if_neg Bool.false_ne_true, if_neg (by decide)]
    rfl
  · unfold BaseAgent.send_message
    dsimp only
    rw [if_neg hgate, hc10, if_pos rfl]
  · unfold BaseAgent.send_message
    dsimp only
    rw [if_neg hgate, hc105, if_pos rfl]
